import Mathlib

/-!
Shallow embedding of the freelance-marketplace Express server (`src/server.js`).

The server exposes CRUD routes over two MongoDB collections (`jobs` and
`acceptedTasks`), guarded by a cookie JWT middleware (`verifyToken`) and
per-resource ownership checks.  We model:

* MongoDB documents as Lean structures.  Client-supplied field values are
  opaque; we model them as `Option String` (`none` = the field is absent /
  `undefined` in the JSON body, which the driver serializes as `null`).
  `postingDate` is always written by the server as an ISO-8601 string; since
  lexicographic order on ISO strings coincides with chronological order, we
  model it as a `Nat` timestamp.
* ObjectIds as `Nat`, generated from a `nextId` counter in the database state.
* Each route handler as a pure function from the database state and request
  data to a `Response` paired with the successor state.
* The JWT library (`jwt.sign` / `jwt.verify` with `expiresIn: 1h`) with a
  perfect-MAC abstraction: the signature is the tuple of the secret, the
  payload and the expiry, and verification checks it against the given secret,
  then rejects when the current time has reached the expiry.
-/

namespace FreelanceServer

/-- The identity decoded from the JWT cookie; handlers read `req.user.email`. -/
structure UserClaim where
  email : String
deriving DecidableEq, Repr

/-- Error cases of `jwt.verify`. -/
inductive JwtError where
  | invalidSignature
  | expired
deriving DecidableEq, Repr

/-- A signed session token: payload (`email`), expiry timestamp, and the
signature, abstracted as a perfect MAC over payload and expiry keyed by the
secret. -/
structure SignedToken where
  email : String
  exp : Nat
  sig : String × String × Nat
deriving DecidableEq, Repr

/-- `jwt.sign(user, secret, expiresIn 1h)`: the expiry is one hour (3600
seconds) from the current time. -/
def jwtSign (email : String) (secret : String) (now : Nat) : SignedToken :=
  { email := email, exp := now + 3600, sig := (secret, email, now + 3600) }

/-- `jwt.verify(token, secret)`: fails on a signature that was not produced
with this secret over this payload and expiry, then fails with `expired` once
the current time has reached the expiry (jsonwebtoken rejects when
`clockTimestamp >= exp`), and otherwise returns the embedded identity. -/
def jwtVerify (t : SignedToken) (secret : String) (now : Nat) :
    Except JwtError UserClaim :=
  if t.sig ≠ (secret, t.email, t.exp) then .error .invalidSignature
  else if t.exp ≤ now then .error .expired
  else .ok ⟨t.email⟩

/-- A document of the `jobs` collection.  `_id` and `postingDate` are written
by the server on insertion; the remaining fields come from the client. -/
structure Job where
  _id : Nat
  employerEmail : Option String
  jobTitle : Option String
  jobCategory : Option String
  description : Option String
  coverImage : Option String
  minPrice : Option String
  maxPrice : Option String
  deadline : Option String
  postingDate : Nat
deriving DecidableEq, Repr

/-- A document of the `acceptedTasks` collection.  The handlers inspect
`jobId` and `jobTakerEmail`; any further client-supplied metadata is carried
verbatim in `extra`. -/
structure AcceptedTask where
  _id : Nat
  jobId : Option String
  jobTakerEmail : Option String
  extra : List (String × String)
deriving DecidableEq, Repr

/-- The JSON body of `POST /jobs` and `PUT /job/:id` as far as the handlers
read it. -/
structure JobBody where
  employerEmail : Option String
  jobTitle : Option String
  jobCategory : Option String
  description : Option String
  coverImage : Option String
  minPrice : Option String
  maxPrice : Option String
  deadline : Option String
  postingDate : Option Nat
deriving DecidableEq, Repr

/-- The JSON body of `POST /accepted-tasks` as far as the handler reads it. -/
structure TaskBody where
  jobId : Option String
  jobTakerEmail : Option String
  extra : List (String × String)
deriving DecidableEq, Repr

/-- Response bodies sent by the handlers: plain messages, documents, document
arrays, and the MongoDB driver result objects (`insertOne` / `updateOne` /
`deleteOne`).  The duplicate-accept branch sends a body with
`insertedId: null` and a message, which is `insertResult none (some m)`. -/
inductive ResBody where
  | text (s : String)
  | msg (m : String)
  | jobDoc (j : Job)
  | jobList (l : List Job)
  | taskList (l : List AcceptedTask)
  | insertResult (insertedId : Option Nat) (message : Option String)
  | updateResult (matchedCount : Nat) (modifiedCount : Nat)
  | deleteResult (deletedCount : Nat)
deriving DecidableEq, Repr

/-- An HTTP response: status code and JSON body. -/
structure Response where
  status : Nat
  body : ResBody
deriving DecidableEq, Repr

/-- The database state: both collections plus the counter from which fresh
ObjectIds are drawn. -/
structure DB where
  jobs : List Job
  tasks : List AcceptedTask
  nextId : Nat
deriving DecidableEq, Repr

/-- `jobCollection.findOne(\x7b _id \x7d)`. -/
def findJob (db : DB) (id : Nat) : Option Job :=
  db.jobs.find? (fun j => decide (j._id = id))

/-- `acceptedTasksCollection.findOne(\x7b _id \x7d)`. -/
def findTask (db : DB) (id : Nat) : Option AcceptedTask :=
  db.tasks.find? (fun t => decide (t._id = id))

/-- The query document `\x7b jobId, jobTakerEmail \x7d` as a predicate on
stored tasks. -/
def pairPred (jobId : Option String) (taker : Option String)
    (t : AcceptedTask) : Bool :=
  decide (t.jobId = jobId ∧ t.jobTakerEmail = taker)

/-- `acceptedTasksCollection.findOne(\x7b jobId, jobTakerEmail \x7d)`. -/
def findTaskPair (db : DB) (jobId : Option String) (taker : Option String) :
    Option AcceptedTask :=
  db.tasks.find? (pairPred jobId taker)

/-- `updateOne` on the jobs collection: apply `f` to the first document whose
`_id` matches, leaving the rest unchanged. -/
def updateFirstJob : List Job → Nat → (Job → Job) → List Job
  | [], _, _ => []
  | j :: rest, id, f =>
      if j._id = id then f j :: rest else j :: updateFirstJob rest id f

/-- `deleteOne` on the jobs collection: remove the first document whose `_id`
matches. -/
def removeFirstJob : List Job → Nat → List Job
  | [], _ => []
  | j :: rest, id => if j._id = id then rest else j :: removeFirstJob rest id

/-- `deleteOne` on the acceptedTasks collection. -/
def removeFirstTask : List AcceptedTask → Nat → List AcceptedTask
  | [], _ => []
  | t :: rest, id => if t._id = id then rest else t :: removeFirstTask rest id

/-- Ascending posting-date order (MongoDB sort `postingDate: 1`). -/
def byDateAsc (a b : Job) : Prop := a.postingDate ≤ b.postingDate

/-- Descending posting-date order (MongoDB sort `postingDate: -1`). -/
def byDateDesc (a b : Job) : Prop := b.postingDate ≤ a.postingDate

instance : DecidableRel byDateAsc := fun a b => Nat.decLe a.postingDate b.postingDate

instance : DecidableRel byDateDesc := fun a b => Nat.decLe b.postingDate a.postingDate

instance : IsTotal Job byDateAsc := ⟨fun _ _ => Nat.le_total _ _⟩

instance : IsTotal Job byDateDesc := ⟨fun _ _ => Nat.le_total _ _⟩

instance : IsTrans Job byDateAsc := ⟨fun _ _ _ h h2 => Nat.le_trans h h2⟩

instance : IsTrans Job byDateDesc := ⟨fun _ _ _ h h2 => Nat.le_trans h2 h⟩

/-- `jobCollection.find().sort(\x7b postingDate: direction \x7d)`: the
collection ordered by posting date, ascending when the direction is `1` and
descending otherwise. -/
def sortedJobs (jobs : List Job) (direction : Int) : List Job :=
  if direction = 1 then jobs.insertionSort byDateAsc
  else jobs.insertionSort byDateDesc

/-- `GET /jobs`: the sort query defaults to `postingDate: -1` and becomes
`postingDate: 1` exactly when the `sort` query parameter equals `asc`. -/
def getJobsHandler (db : DB) (sortParam : Option String) : Response × DB :=
  let sortQuery : Int := if sortParam = some "asc" then 1 else -1
  (⟨200, .jobList (sortedJobs db.jobs sortQuery)⟩, db)

/-- `GET /job/:id`: 404 when the id matches no job, otherwise the document. -/
def getJobHandler (db : DB) (id : Nat) : Response × DB :=
  match findJob db id with
  | none => (⟨404, .msg "Job not found"⟩, db)
  | some j => (⟨200, .jobDoc j⟩, db)

/-- `GET /jobs/employer/:email`: 403 unless the authenticated email equals the
path email; otherwise the jobs whose `employerEmail` equals it. -/
def getEmployerJobsHandler (db : DB) (u : UserClaim) (email : String) :
    Response × DB :=
  if u.email ≠ email then
    (⟨403, .msg "Forbidden: Cannot access other user\x27s jobs"⟩, db)
  else
    (⟨200, .jobList (db.jobs.filter (fun j => decide (j.employerEmail = some email)))⟩, db)

/-- The job document inserted by `POST /jobs`: the body fields, a fresh
ObjectId, and `postingDate` taken from the body when present and from the
current time otherwise. -/
def newJobDoc (db : DB) (body : JobBody) (now : Nat) : Job :=
  { _id := db.nextId
    employerEmail := body.employerEmail
    jobTitle := body.jobTitle
    jobCategory := body.jobCategory
    description := body.description
    coverImage := body.coverImage
    minPrice := body.minPrice
    maxPrice := body.maxPrice
    deadline := body.deadline
    postingDate := body.postingDate.getD now }

/-- `POST /jobs`: 403 when the authenticated email differs from the body
`employerEmail`; otherwise insert the new document and return the insert
result. -/
def postJobsHandler (db : DB) (u : UserClaim) (body : JobBody) (now : Nat) :
    Response × DB :=
  if some u.email ≠ body.employerEmail then
    (⟨403, .msg "Forbidden: Email mismatch"⟩, db)
  else
    (⟨200, .insertResult (some db.nextId) none⟩,
     { db with jobs := db.jobs ++ [newJobDoc db body now], nextId := db.nextId + 1 })

/-- The `$set` document of `PUT /job/:id`: exactly the seven listed fields are
written from the body; `_id`, `employerEmail` and `postingDate` are not
touched.  An absent body field is `undefined`, which the driver serializes as
`null`, so the stored field becomes `none`. -/
def applyPutSet (body : JobBody) (j : Job) : Job :=
  { j with
    jobTitle := body.jobTitle
    jobCategory := body.jobCategory
    description := body.description
    coverImage := body.coverImage
    minPrice := body.minPrice
    maxPrice := body.maxPrice
    deadline := body.deadline }

/-- `PUT /job/:id`: load the job by id; respond 403 when it is absent or its
`employerEmail` differs from the authenticated email; otherwise apply the
`$set` via `updateOne` and return the update result. -/
def putJobHandler (db : DB) (u : UserClaim) (id : Nat) (body : JobBody) :
    Response × DB :=
  match findJob db id with
  | none => (⟨403, .msg "Forbidden: You cannot update this job"⟩, db)
  | some job =>
      if some u.email ≠ job.employerEmail then
        (⟨403, .msg "Forbidden: You cannot update this job"⟩, db)
      else
        (⟨200, .updateResult 1 (if applyPutSet body job = job then 0 else 1)⟩,
         { db with jobs := updateFirstJob db.jobs id (applyPutSet body) })

/-- `DELETE /job/:id`: load the job by id; respond 403 when it is absent or
owned by someone else; otherwise delete it. -/
def deleteJobHandler (db : DB) (u : UserClaim) (id : Nat) : Response × DB :=
  match findJob db id with
  | none => (⟨403, .msg "Forbidden: You cannot delete this job"⟩, db)
  | some job =>
      if some u.email ≠ job.employerEmail then
        (⟨403, .msg "Forbidden: You cannot delete this job"⟩, db)
      else
        (⟨200, .deleteResult 1⟩, { db with jobs := removeFirstJob db.jobs id })

/-- The task document inserted by `POST /accepted-tasks`. -/
def newTaskDoc (db : DB) (body : TaskBody) : AcceptedTask :=
  { _id := db.nextId
    jobId := body.jobId
    jobTakerEmail := body.jobTakerEmail
    extra := body.extra }

/-- `POST /accepted-tasks`: 403 when the authenticated email differs from the
body `jobTakerEmail`; then a no-op duplicate signal when a task with the same
`(jobId, jobTakerEmail)` pair exists; otherwise insert. -/
def postAcceptedTasksHandler (db : DB) (u : UserClaim) (body : TaskBody) :
    Response × DB :=
  if some u.email ≠ body.jobTakerEmail then
    (⟨403, .msg "Forbidden: Email mismatch"⟩, db)
  else
    match findTaskPair db body.jobId body.jobTakerEmail with
    | some _ => (⟨200, .insertResult none (some "Already accepted")⟩, db)
    | none =>
        (⟨200, .insertResult (some db.nextId) none⟩,
         { db with tasks := db.tasks ++ [newTaskDoc db body], nextId := db.nextId + 1 })

/-- `GET /accepted-tasks/taker/:email`: 403 unless the authenticated email
equals the path email; otherwise the tasks with that `jobTakerEmail`. -/
def getTakerTasksHandler (db : DB) (u : UserClaim) (email : String) :
    Response × DB :=
  if u.email ≠ email then
    (⟨403, .msg "Forbidden: Cannot access other user\x27s accepted tasks"⟩, db)
  else
    (⟨200, .taskList (db.tasks.filter (fun t => decide (t.jobTakerEmail = some email)))⟩, db)

/-- `DELETE /accepted-tasks/:id`: load the task by id; respond 403 when it is
absent or owned by another taker; otherwise delete it. -/
def deleteTaskHandler (db : DB) (u : UserClaim) (id : Nat) : Response × DB :=
  match findTask db id with
  | none =>
      (⟨403, .msg "Forbidden: You cannot perform this action on this task"⟩, db)
  | some t =>
      if some u.email ≠ t.jobTakerEmail then
        (⟨403, .msg "Forbidden: You cannot perform this action on this task"⟩, db)
      else
        (⟨200, .deleteResult 1⟩, { db with tasks := removeFirstTask db.tasks id })

/-- The `verifyToken` middleware: reject with 401 when the `token` cookie is
absent, reject with 401 when `jwt.verify` fails, and otherwise run the
downstream handler with the decoded identity attached. -/
def verifyToken (cookieToken : Option SignedToken) (secret : String) (now : Nat)
    (handler : UserClaim → DB → Response × DB) (db : DB) : Response × DB :=
  match cookieToken with
  | none => (⟨401, .msg "Unauthorized: No token"⟩, db)
  | some t =>
      match jwtVerify t secret now with
      | .error _ => (⟨401, .msg "Unauthorized: Invalid token"⟩, db)
      | .ok u => handler u db

/-- `POST /jwt`: sign the submitted identity for one hour and set it as the
`token` cookie. -/
def postJwt (email : String) (secret : String) (now : Nat) :
    SignedToken × Response :=
  (jwtSign email secret now, ⟨200, .msg "Token set successfully"⟩)

/-- Number of stored accepted tasks with the given `(jobId, jobTakerEmail)`
pair. -/
def countPair (db : DB) (jobId : Option String) (taker : Option String) : Nat :=
  (db.tasks.filter (pairPred jobId taker)).length

/-! Concrete fixtures used by the witnesses and counterexamples below. -/

/-- A stored job owned by `a@x.com`. -/
def jobA : Job :=
  { _id := 0, employerEmail := some "a@x.com", jobTitle := some "Logo",
    jobCategory := some "Design", description := some "d", coverImage := none,
    minPrice := some "10", maxPrice := some "20", deadline := some "2025-01-01",
    postingDate := 10 }

/-- A stored accepted task owned by `t@x.com`. -/
def taskT : AcceptedTask :=
  { _id := 1, jobId := some "J1", jobTakerEmail := some "t@x.com", extra := [] }

/-- A small database holding `jobA` and `taskT`. -/
def db0 : DB := { jobs := [jobA], tasks := [taskT], nextId := 2 }

/-- An identity that owns neither fixture. -/
def userB : UserClaim := ⟨"b@x.com"⟩

/-- A `PUT /job` body with every optional field absent. -/
def bodyNone : JobBody :=
  { employerEmail := none, jobTitle := none, jobCategory := none,
    description := none, coverImage := none, minPrice := none, maxPrice := none,
    deadline := none, postingDate := none }

/-- A `POST /jobs` body attributed to `a@x.com`. -/
def bodyA : JobBody :=
  { employerEmail := some "a@x.com", jobTitle := some "Logo",
    jobCategory := some "Design", description := some "d", coverImage := none,
    minPrice := some "10", maxPrice := some "20", deadline := some "2025-01-01",
    postingDate := some 10 }

/-- A `POST /accepted-tasks` body for the pair `(J1, t@x.com)`. -/
def bodyT : TaskBody :=
  { jobId := some "J1", jobTakerEmail := some "t@x.com", extra := [] }

/-- The empty database. -/
def emptyDB : DB := { jobs := [], tasks := [], nextId := 0 }

/-- A database with `jobA` but no accepted task yet. -/
def dbNoTask : DB := { jobs := [jobA], tasks := [], nextId := 2 }

/-- The taker identity owning `taskT` and `bodyT`. -/
def userT : UserClaim := ⟨"t@x.com"⟩

/-- The employer identity owning `jobA` and `bodyA`. -/
def userA : UserClaim := ⟨"a@x.com"⟩

/-- A downstream handler used to observe whether the gate lets a request
through. -/
def okHandler : UserClaim → DB → Response × DB := fun _ db => (⟨200, .text "ok"⟩, db)

/-- A token whose signature was not produced with the secret `s`. -/
def badToken : SignedToken :=
  { email := "e@x.com", exp := 4000, sig := ("wrong", "e@x.com", 4000) }

/-! Auxiliary lemmas about the collection operations. -/

/-- `findJob` unfolded to a `find?` over the stored list. -/
theorem findJob_def (db : DB) (id : Nat) :
    findJob db id = db.jobs.find? (fun x => decide (x._id = id)) := rfl

/-- `findTaskPair` unfolded to a `find?` over the stored list. -/
theorem findTaskPair_def (db : DB) (a b : Option String) :
    findTaskPair db a b = db.tasks.find? (pairPred a b) := rfl

/-- Updating the first matching document via an id-preserving function keeps
it the first match, now with the function applied. -/
theorem find?_updateFirstJob (f : Job → Job) (hf : ∀ k, (f k)._id = k._id)
    (id : Nat) :
    ∀ (jobs : List Job) (j : Job),
      jobs.find? (fun x => decide (x._id = id)) = some j →
      (updateFirstJob jobs id f).find? (fun x => decide (x._id = id)) = some (f j)
  | [], j, h => by simp [List.find?] at h
  | x :: rest, j, h => by
      by_cases hx : x._id = id
      · rw [List.find?_cons_of_pos _ (by simp [hx])] at h
        injection h with hxj
        subst hxj
        unfold updateFirstJob
        rw [if_pos hx]
        exact List.find?_cons_of_pos _ (by simp [hf, hx])
      · rw [List.find?_cons_of_neg _ (by simp [hx])] at h
        unfold updateFirstJob
        rw [if_neg hx]
        rw [List.find?_cons_of_neg _ (by simp [hx])]
        exact find?_updateFirstJob f hf id rest j h

/-! Theorems settling the claims. -/

/-- C1: for every owner-scoped endpoint, a request whose authenticated
identity differs from the resource or path owner gets status 403 and leaves
both collections (indeed the whole database state) unchanged. -/
theorem owner_scoped_endpoints_forbid_non_owner :
    (∀ (db : DB) (u : UserClaim) (email : String), u.email ≠ email →
      (getEmployerJobsHandler db u email).1.status = 403 ∧
      (getEmployerJobsHandler db u email).2 = db) ∧
    (∀ (db : DB) (u : UserClaim) (body : JobBody) (now : Nat),
      some u.email ≠ body.employerEmail →
      (postJobsHandler db u body now).1.status = 403 ∧
      (postJobsHandler db u body now).2 = db) ∧
    (∀ (db : DB) (u : UserClaim) (id : Nat) (body : JobBody) (j : Job),
      findJob db id = some j → some u.email ≠ j.employerEmail →
      (putJobHandler db u id body).1.status = 403 ∧
      (putJobHandler db u id body).2 = db) ∧
    (∀ (db : DB) (u : UserClaim) (id : Nat) (j : Job),
      findJob db id = some j → some u.email ≠ j.employerEmail →
      (deleteJobHandler db u id).1.status = 403 ∧
      (deleteJobHandler db u id).2 = db) ∧
    (∀ (db : DB) (u : UserClaim) (body : TaskBody),
      some u.email ≠ body.jobTakerEmail →
      (postAcceptedTasksHandler db u body).1.status = 403 ∧
      (postAcceptedTasksHandler db u body).2 = db) ∧
    (∀ (db : DB) (u : UserClaim) (email : String), u.email ≠ email →
      (getTakerTasksHandler db u email).1.status = 403 ∧
      (getTakerTasksHandler db u email).2 = db) ∧
    (∀ (db : DB) (u : UserClaim) (id : Nat) (t : AcceptedTask),
      findTask db id = some t → some u.email ≠ t.jobTakerEmail →
      (deleteTaskHandler db u id).1.status = 403 ∧
      (deleteTaskHandler db u id).2 = db) := by
  refine ⟨?_, ?_, ?_, ?_, ?_, ?_, ?_⟩
  · intro db u email h
    unfold getEmployerJobsHandler
    rw [if_pos h]
    exact ⟨rfl, rfl⟩
  · intro db u body now h
    unfold postJobsHandler
    rw [if_pos h]
    exact ⟨rfl, rfl⟩
  · intro db u id body j hfind h
    simp only [putJobHandler, hfind]
    rw [if_pos h]
    exact ⟨rfl, rfl⟩
  · intro db u id j hfind h
    simp only [deleteJobHandler, hfind]
    rw [if_pos h]
    exact ⟨rfl, rfl⟩
  · intro db u body h
    unfold postAcceptedTasksHandler
    rw [if_pos h]
    exact ⟨rfl, rfl⟩
  · intro db u email h
    unfold getTakerTasksHandler
    rw [if_pos h]
    exact ⟨rfl, rfl⟩
  · intro db u id t hfind h
    simp only [deleteTaskHandler, hfind]
    rw [if_pos h]
    exact ⟨rfl, rfl⟩

/-- C1 witness: each of the seven endpoints, hit on the fixture database by
the non-owner `b@x.com`, answers 403 and leaves the database unchanged. -/
theorem owner_scoped_endpoints_forbid_non_owner_witness :
    ((getEmployerJobsHandler db0 userB "a@x.com").1.status = 403 ∧
      (getEmployerJobsHandler db0 userB "a@x.com").2 = db0) ∧
    ((postJobsHandler db0 userB bodyA 0).1.status = 403 ∧
      (postJobsHandler db0 userB bodyA 0).2 = db0) ∧
    ((putJobHandler db0 userB 0 bodyNone).1.status = 403 ∧
      (putJobHandler db0 userB 0 bodyNone).2 = db0) ∧
    ((deleteJobHandler db0 userB 0).1.status = 403 ∧
      (deleteJobHandler db0 userB 0).2 = db0) ∧
    ((postAcceptedTasksHandler db0 userB bodyT).1.status = 403 ∧
      (postAcceptedTasksHandler db0 userB bodyT).2 = db0) ∧
    ((getTakerTasksHandler db0 userB "t@x.com").1.status = 403 ∧
      (getTakerTasksHandler db0 userB "t@x.com").2 = db0) ∧
    ((deleteTaskHandler db0 userB 1).1.status = 403 ∧
      (deleteTaskHandler db0 userB 1).2 = db0) :=
  ⟨owner_scoped_endpoints_forbid_non_owner.1 db0 userB "a@x.com" (by decide),
   owner_scoped_endpoints_forbid_non_owner.2.1 db0 userB bodyA 0 (by decide),
   owner_scoped_endpoints_forbid_non_owner.2.2.1 db0 userB 0 bodyNone jobA rfl (by decide),
   owner_scoped_endpoints_forbid_non_owner.2.2.2.1 db0 userB 0 jobA rfl (by decide),
   owner_scoped_endpoints_forbid_non_owner.2.2.2.2.1 db0 userB bodyT (by decide),
   owner_scoped_endpoints_forbid_non_owner.2.2.2.2.2.1 db0 userB "t@x.com" (by decide),
   owner_scoped_endpoints_forbid_non_owner.2.2.2.2.2.2 db0 userB 1 taskT rfl (by decide)⟩

/-- C3 counterexample: the 401 bodies produced by `verifyToken` say
`Unauthorized: No token` and `Unauthorized: Invalid token`, not the claimed
`Unauthorized access: ...` wording. -/
theorem auth_gate_message_counterexample :
    (verifyToken none "s" 0 okHandler emptyDB).1.status = 401 ∧
    (verifyToken none "s" 0 okHandler emptyDB).1.body ≠
      ResBody.msg "Unauthorized access: No token" ∧
    (verifyToken (some badToken) "s" 0 okHandler emptyDB).1.status = 401 ∧
    (verifyToken (some badToken) "s" 0 okHandler emptyDB).1.body ≠
      ResBody.msg "Unauthorized access: Invalid token" := by
  decide

/-- C3 amended: with no `token` cookie the gate answers 401 with body message
`Unauthorized: No token`; with a cookie that fails verification it answers 401
with body message `Unauthorized: Invalid token`; in both cases the result does
not depend on the downstream handler, which therefore never runs, and the
database is unchanged. -/
theorem auth_gate_rejections :
    (∀ (secret : String) (now : Nat) (db : DB)
        (handler : UserClaim → DB → Response × DB),
      verifyToken none secret now handler db =
        (⟨401, .msg "Unauthorized: No token"⟩, db)) ∧
    (∀ (secret : String) (now : Nat) (db : DB)
        (handler : UserClaim → DB → Response × DB)
        (t : SignedToken) (e : JwtError),
      jwtVerify t secret now = .error e →
      verifyToken (some t) secret now handler db =
        (⟨401, .msg "Unauthorized: Invalid token"⟩, db)) := by
  constructor
  · intro secret now db handler
    rfl
  · intro secret now db handler t e h
    simp only [verifyToken, h]

/-- C3 witness: on the fixture database, a request without a cookie and a
request with a badly signed token are both rejected with the respective 401
response, even though the downstream handler would have answered 200. -/
theorem auth_gate_rejections_witness :
    verifyToken none "s" 0 okHandler emptyDB =
      (⟨401, .msg "Unauthorized: No token"⟩, emptyDB) ∧
    jwtVerify badToken "s" 0 = .error .invalidSignature ∧
    verifyToken (some badToken) "s" 0 okHandler emptyDB =
      (⟨401, .msg "Unauthorized: Invalid token"⟩, emptyDB) :=
  ⟨auth_gate_rejections.1 "s" 0 emptyDB okHandler,
   rfl,
   auth_gate_rejections.2 "s" 0 emptyDB okHandler badToken .invalidSignature rfl⟩

/-- C4 counterexample: on the fixture database, updating or deleting an
absent id (7) yields exactly the same 403 response and state as updating or
deleting an existing resource owned by someone else, so not-found semantics
are not distinct from forbidden. -/
theorem not_found_distinct_counterexample :
    putJobHandler db0 userB 7 bodyNone = putJobHandler db0 userB 0 bodyNone ∧
    (putJobHandler db0 userB 7 bodyNone).1.status = 403 ∧
    deleteJobHandler db0 userB 7 = deleteJobHandler db0 userB 0 ∧
    (deleteJobHandler db0 userB 7).1.status = 403 ∧
    deleteTaskHandler db0 userB 7 = deleteTaskHandler db0 userB 1 ∧
    (deleteTaskHandler db0 userB 7).1.status = 403 := by
  decide

/-- C4 amended: each mutation handler loads the target by id first, and when
no resource with that id exists it answers the same 403 Forbidden response
(status and body) as the owner-mismatch case, leaving the database
unchanged. -/
theorem missing_resource_collapses_to_forbidden :
    (∀ (db : DB) (u : UserClaim) (id : Nat) (body : JobBody),
      findJob db id = none →
      putJobHandler db u id body =
        (⟨403, .msg "Forbidden: You cannot update this job"⟩, db)) ∧
    (∀ (db : DB) (u : UserClaim) (id : Nat),
      findJob db id = none →
      deleteJobHandler db u id =
        (⟨403, .msg "Forbidden: You cannot delete this job"⟩, db)) ∧
    (∀ (db : DB) (u : UserClaim) (id : Nat),
      findTask db id = none →
      deleteTaskHandler db u id =
        (⟨403, .msg "Forbidden: You cannot perform this action on this task"⟩, db)) := by
  refine ⟨?_, ?_, ?_⟩
  · intro db u id body h
    unfold putJobHandler
    rw [h]
  · intro db u id h
    unfold deleteJobHandler
    rw [h]
  · intro db u id h
    unfold deleteTaskHandler
    rw [h]

/-- C4 witness: on the fixture database, id 7 matches nothing and each
mutation handler answers the collapsed 403 response. -/
theorem missing_resource_collapses_to_forbidden_witness :
    putJobHandler db0 userB 7 bodyNone =
      (⟨403, .msg "Forbidden: You cannot update this job"⟩, db0) ∧
    deleteJobHandler db0 userB 7 =
      (⟨403, .msg "Forbidden: You cannot delete this job"⟩, db0) ∧
    deleteTaskHandler db0 userB 7 =
      (⟨403, .msg "Forbidden: You cannot perform this action on this task"⟩, db0) :=
  ⟨missing_resource_collapses_to_forbidden.1 db0 userB 7 bodyNone (by decide),
   missing_resource_collapses_to_forbidden.2.1 db0 userB 7 (by decide),
   missing_resource_collapses_to_forbidden.2.2 db0 userB 7 (by decide)⟩

/-- C5: verifying a token issued for an identity with the same secret returns
that identity as long as the current time is before the expiry (issue time
plus 3600 seconds), and fails with the expired error once the expiry has been
reached. -/
theorem jwt_roundtrip_and_expiry :
    ∀ (email secret : String) (t0 t : Nat),
      (t < t0 + 3600 →
        jwtVerify (jwtSign email secret t0) secret t = .ok ⟨email⟩) ∧
      (t0 + 3600 ≤ t →
        jwtVerify (jwtSign email secret t0) secret t = .error .expired) := by
  intro email secret t0 t
  constructor
  · intro h
    simp only [jwtSign, jwtVerify]
    rw [if_neg (by simp)]
    rw [if_neg (by omega)]
  · intro h
    simp only [jwtSign, jwtVerify]
    rw [if_neg (by simp)]
    rw [if_pos h]

/-- C5 witness: a token issued at time 0 for `e@x.com` verifies to `e@x.com`
at time 3599 and is rejected as expired at time 3600. -/
theorem jwt_roundtrip_and_expiry_witness :
    (3599 < 0 + 3600 ∧
      jwtVerify (jwtSign "e@x.com" "s" 0) "s" 3599 = .ok ⟨"e@x.com"⟩) ∧
    (0 + 3600 ≤ 3600 ∧
      jwtVerify (jwtSign "e@x.com" "s" 0) "s" 3600 = .error .expired) :=
  ⟨⟨by decide, (jwt_roundtrip_and_expiry "e@x.com" "s" 0 3599).1 (by decide)⟩,
   ⟨by decide, (jwt_roundtrip_and_expiry "e@x.com" "s" 0 3600).2 (by decide)⟩⟩

/-- C8: an authenticated `GET /job/:id` answers 404 with message
`Job not found` when the id matches no stored job, and otherwise answers the
stored document with status 200; the database is unchanged either way. -/
theorem get_job_by_id_semantics :
    ∀ (db : DB) (id : Nat),
      (findJob db id = none →
        getJobHandler db id = (⟨404, .msg "Job not found"⟩, db)) ∧
      (∀ j : Job, findJob db id = some j →
        getJobHandler db id = (⟨200, .jobDoc j⟩, db)) := by
  intro db id
  constructor
  · intro h
    unfold getJobHandler
    rw [h]
  · intro j h
    unfold getJobHandler
    rw [h]

/-- C8 witness: on the fixture database, id 7 yields the 404 response and id 0
yields the stored document `jobA`. -/
theorem get_job_by_id_semantics_witness :
    getJobHandler db0 7 = (⟨404, .msg "Job not found"⟩, db0) ∧
    getJobHandler db0 0 = (⟨200, .jobDoc jobA⟩, db0) :=
  ⟨(get_job_by_id_semantics db0 7).1 (by decide),
   (get_job_by_id_semantics db0 0).2 jobA rfl⟩

/-- C2: accepting a `(jobId, jobTakerEmail)` pair that is not yet stored,
authenticated as that taker, inserts one record and returns the fresh id; the
identical second request answers the no-op signal (message
`Already accepted`, `insertedId` null) and changes nothing, so exactly one
record with that pair exists after both calls. -/
theorem accept_task_idempotent :
    ∀ (db : DB) (u : UserClaim) (body : TaskBody),
      body.jobTakerEmail = some u.email →
      findTaskPair db body.jobId body.jobTakerEmail = none →
      (postAcceptedTasksHandler db u body).1 =
        ⟨200, .insertResult (some db.nextId) none⟩ ∧
      countPair (postAcceptedTasksHandler db u body).2
        body.jobId body.jobTakerEmail = 1 ∧
      (postAcceptedTasksHandler (postAcceptedTasksHandler db u body).2 u body).1 =
        ⟨200, .insertResult none (some "Already accepted")⟩ ∧
      (postAcceptedTasksHandler (postAcceptedTasksHandler db u body).2 u body).2 =
        (postAcceptedTasksHandler db u body).2 := by
  intro db u body hmail hnone
  have hguard : ¬ (some u.email ≠ body.jobTakerEmail) := by
    rw [hmail]
    simp
  have hpred : pairPred body.jobId body.jobTakerEmail (newTaskDoc db body) = true := by
    simp [pairPred, newTaskDoc]
  rw [findTaskPair_def] at hnone
  have hstep : postAcceptedTasksHandler db u body =
      (⟨200, .insertResult (some db.nextId) none⟩,
       { db with tasks := db.tasks ++ [newTaskDoc db body],
                 nextId := db.nextId + 1 }) := by
    simp only [postAcceptedTasksHandler, findTaskPair_def, hnone]
    rw [if_neg hguard]
  have h2find : findTaskPair (postAcceptedTasksHandler db u body).2
      body.jobId body.jobTakerEmail = some (newTaskDoc db body) := by
    rw [hstep, findTaskPair_def]
    show (db.tasks ++ [newTaskDoc db body]).find?
        (pairPred body.jobId body.jobTakerEmail) = some (newTaskDoc db body)
    rw [List.find?_append, hnone]
    simp [List.find?, hpred]
  have hdup : ∀ db2 : DB,
      findTaskPair db2 body.jobId body.jobTakerEmail = some (newTaskDoc db body) →
      postAcceptedTasksHandler db2 u body =
        (⟨200, .insertResult none (some "Already accepted")⟩, db2) := by
    intro db2 hfind
    simp only [postAcceptedTasksHandler, hfind]
    rw [if_neg hguard]
  refine ⟨by rw [hstep], ?_, ?_, ?_⟩
  · rw [hstep]
    show ((db.tasks ++ [newTaskDoc db body]).filter
        (pairPred body.jobId body.jobTakerEmail)).length = 1
    rw [List.filter_append,
        List.filter_eq_nil_iff.mpr (List.find?_eq_none.mp hnone)]
    simp [List.filter, hpred]
  · rw [hdup _ h2find]
  · rw [hdup _ h2find]

/-- C2 witness: on a database with no accepted task, taker `t@x.com` accepts
the pair `(J1, t@x.com)`: the first call returns the fresh id 2 and stores one
matching record, the second call returns the no-op signal and leaves the
database unchanged. -/
theorem accept_task_idempotent_witness :
    (postAcceptedTasksHandler dbNoTask userT bodyT).1 =
      ⟨200, .insertResult (some 2) none⟩ ∧
    countPair (postAcceptedTasksHandler dbNoTask userT bodyT).2
      (some "J1") (some "t@x.com") = 1 ∧
    (postAcceptedTasksHandler
      (postAcceptedTasksHandler dbNoTask userT bodyT).2 userT bodyT).1 =
      ⟨200, .insertResult none (some "Already accepted")⟩ ∧
    (postAcceptedTasksHandler
      (postAcceptedTasksHandler dbNoTask userT bodyT).2 userT bodyT).2 =
      (postAcceptedTasksHandler dbNoTask userT bodyT).2 :=
  accept_task_idempotent dbNoTask userT bodyT rfl rfl

/-- C6: `GET /jobs` answers the stored jobs ordered by posting date, ascending
exactly when the `sort` parameter is `asc`, and descending by default; every
other `sort` value (absent, `desc`, or garbage) produces exactly the default
descending response rather than an error. -/
theorem get_jobs_sorting :
    ∀ db : DB,
      (getJobsHandler db (some "asc")).1.body =
        ResBody.jobList (sortedJobs db.jobs 1) ∧
      List.Sorted byDateAsc (sortedJobs db.jobs 1) ∧
      (sortedJobs db.jobs 1).Perm db.jobs ∧
      (getJobsHandler db none).1.body =
        ResBody.jobList (sortedJobs db.jobs (-1)) ∧
      List.Sorted byDateDesc (sortedJobs db.jobs (-1)) ∧
      (sortedJobs db.jobs (-1)).Perm db.jobs ∧
      (∀ s : Option String, s ≠ some "asc" →
        getJobsHandler db s = getJobsHandler db none) := by
  intro db
  refine ⟨rfl, ?_, ?_, rfl, ?_, ?_, ?_⟩
  · show List.Sorted byDateAsc (db.jobs.insertionSort byDateAsc)
    exact List.sorted_insertionSort _ _
  · show (db.jobs.insertionSort byDateAsc).Perm db.jobs
    exact List.perm_insertionSort _ _
  · show List.Sorted byDateDesc (db.jobs.insertionSort byDateDesc)
    exact List.sorted_insertionSort _ _
  · show (db.jobs.insertionSort byDateDesc).Perm db.jobs
    exact List.perm_insertionSort _ _
  · intro s hs
    simp [getJobsHandler, hs]

/-- C6 witness: on the fixture database, `sort=desc` yields exactly the same
response as no `sort` parameter. -/
theorem get_jobs_sorting_witness :
    getJobsHandler db0 (some "desc") = getJobsHandler db0 none :=
  (get_jobs_sorting db0).2.2.2.2.2.2 (some "desc") (by decide)

/-- C7: a `POST /jobs` body attributed to `a@x.com` is rejected with 403 and
nothing inserted when the authenticated identity is `b@x.com`; the same body
authenticated as `a@x.com` is inserted under a fresh id and is then
retrievable via `GET /job/:id`. -/
theorem create_job_flow :
    ∀ (db : DB) (body : JobBody) (now : Nat),
      body.employerEmail = some "a@x.com" →
      (∀ j ∈ db.jobs, j._id < db.nextId) →
      postJobsHandler db ⟨"b@x.com"⟩ body now =
        (⟨403, .msg "Forbidden: Email mismatch"⟩, db) ∧
      (postJobsHandler db ⟨"a@x.com"⟩ body now).1 =
        ⟨200, .insertResult (some db.nextId) none⟩ ∧
      findJob (postJobsHandler db ⟨"a@x.com"⟩ body now).2 db.nextId =
        some (newJobDoc db body now) ∧
      getJobHandler (postJobsHandler db ⟨"a@x.com"⟩ body now).2 db.nextId =
        (⟨200, .jobDoc (newJobDoc db body now)⟩,
         (postJobsHandler db ⟨"a@x.com"⟩ body now).2) := by
  intro db body now hmail hfresh
  have hg1 : some (UserClaim.mk "b@x.com").email ≠ body.employerEmail := by
    rw [hmail]
    decide
  have hg2 : ¬ (some (UserClaim.mk "a@x.com").email ≠ body.employerEmail) := by
    rw [hmail]
    decide
  have hnone : db.jobs.find? (fun x => decide (x._id = db.nextId)) = none := by
    refine List.find?_eq_none.mpr (fun x hx => ?_)
    simp only [decide_eq_true_eq]
    exact Nat.ne_of_lt (hfresh x hx)
  have hstep : (postJobsHandler db ⟨"a@x.com"⟩ body now).2 =
      { db with jobs := db.jobs ++ [newJobDoc db body now],
                nextId := db.nextId + 1 } := by
    unfold postJobsHandler
    rw [if_neg hg2]
  have hfind : findJob (postJobsHandler db ⟨"a@x.com"⟩ body now).2 db.nextId =
      some (newJobDoc db body now) := by
    rw [hstep]
    show (db.jobs ++ [newJobDoc db body now]).find?
        (fun x => decide (x._id = db.nextId)) = some (newJobDoc db body now)
    rw [List.find?_append, hnone]
    simp [List.find?, newJobDoc]
  refine ⟨?_, ?_, hfind, ?_⟩
  · unfold postJobsHandler
    rw [if_pos hg1]
  · unfold postJobsHandler
    rw [if_neg hg2]
  · unfold getJobHandler
    rw [hfind]

/-- C7 witness: the flow run on the empty database with the fixture body
attributed to `a@x.com`, at time 7. -/
theorem create_job_flow_witness :
    postJobsHandler emptyDB ⟨"b@x.com"⟩ bodyA 7 =
      (⟨403, .msg "Forbidden: Email mismatch"⟩, emptyDB) ∧
    (postJobsHandler emptyDB ⟨"a@x.com"⟩ bodyA 7).1 =
      ⟨200, .insertResult (some 0) none⟩ ∧
    findJob (postJobsHandler emptyDB ⟨"a@x.com"⟩ bodyA 7).2 0 =
      some (newJobDoc emptyDB bodyA 7) ∧
    getJobHandler (postJobsHandler emptyDB ⟨"a@x.com"⟩ bodyA 7).2 0 =
      (⟨200, .jobDoc (newJobDoc emptyDB bodyA 7)⟩,
       (postJobsHandler emptyDB ⟨"a@x.com"⟩ bodyA 7).2) :=
  create_job_flow emptyDB bodyA 7 rfl (by simp [emptyDB])

/-- C9: a successful owner update via `PUT /job/:id` leaves `employerEmail`
and `postingDate` of the stored job unchanged and writes exactly the seven
`$set` fields from the request body. -/
theorem put_preserves_owner_and_posting_date :
    ∀ (db : DB) (u : UserClaim) (id : Nat) (body : JobBody) (j : Job),
      findJob db id = some j → some u.email = j.employerEmail →
      findJob (putJobHandler db u id body).2 id = some (applyPutSet body j) ∧
      (applyPutSet body j).employerEmail = j.employerEmail ∧
      (applyPutSet body j).postingDate = j.postingDate ∧
      (applyPutSet body j).jobTitle = body.jobTitle ∧
      (applyPutSet body j).jobCategory = body.jobCategory ∧
      (applyPutSet body j).description = body.description ∧
      (applyPutSet body j).coverImage = body.coverImage ∧
      (applyPutSet body j).minPrice = body.minPrice ∧
      (applyPutSet body j).maxPrice = body.maxPrice ∧
      (applyPutSet body j).deadline = body.deadline := by
  intro db u id body j hfind howner
  have hguard : ¬ (some u.email ≠ j.employerEmail) := by
    rw [howner]
    simp
  have hstate : (putJobHandler db u id body).2 =
      { db with jobs := updateFirstJob db.jobs id (applyPutSet body) } := by
    simp only [putJobHandler, hfind]
    rw [if_neg hguard]
  refine ⟨?_, rfl, rfl, rfl, rfl, rfl, rfl, rfl, rfl, rfl⟩
  rw [hstate]
  show (updateFirstJob db.jobs id (applyPutSet body)).find?
      (fun x => decide (x._id = id)) = some (applyPutSet body j)
  exact find?_updateFirstJob (applyPutSet body) (fun _ => rfl) id db.jobs j hfind

/-- C9 witness: owner `a@x.com` updates `jobA` with an arbitrary body; the
stored job keeps its `employerEmail` and `postingDate` and carries the body
fields. -/
theorem put_preserves_owner_and_posting_date_witness :
    findJob (putJobHandler db0 userA 0 bodyNone).2 0 =
      some (applyPutSet bodyNone jobA) ∧
    (applyPutSet bodyNone jobA).employerEmail = jobA.employerEmail ∧
    (applyPutSet bodyNone jobA).postingDate = jobA.postingDate ∧
    (applyPutSet bodyNone jobA).jobTitle = bodyNone.jobTitle ∧
    (applyPutSet bodyNone jobA).jobCategory = bodyNone.jobCategory ∧
    (applyPutSet bodyNone jobA).description = bodyNone.description ∧
    (applyPutSet bodyNone jobA).coverImage = bodyNone.coverImage ∧
    (applyPutSet bodyNone jobA).minPrice = bodyNone.minPrice ∧
    (applyPutSet bodyNone jobA).maxPrice = bodyNone.maxPrice ∧
    (applyPutSet bodyNone jobA).deadline = bodyNone.deadline :=
  put_preserves_owner_and_posting_date db0 userA 0 bodyNone jobA rfl rfl

/-- C10: a successful owner update writes all seven `$set` fields from the
body unconditionally: the stored value of each becomes the body value, and a
field absent from the body does not keep its previous stored value but is
overwritten with the absent value. -/
theorem put_overwrites_fields_unconditionally :
    ∀ (db : DB) (u : UserClaim) (id : Nat) (body : JobBody) (j : Job),
      findJob db id = some j → some u.email = j.employerEmail →
      findJob (putJobHandler db u id body).2 id = some (applyPutSet body j) ∧
      ((applyPutSet body j).jobTitle = body.jobTitle ∧
       (applyPutSet body j).jobCategory = body.jobCategory ∧
       (applyPutSet body j).description = body.description ∧
       (applyPutSet body j).coverImage = body.coverImage ∧
       (applyPutSet body j).minPrice = body.minPrice ∧
       (applyPutSet body j).maxPrice = body.maxPrice ∧
       (applyPutSet body j).deadline = body.deadline) ∧
      (∀ v : String, body.jobTitle = none → j.jobTitle = some v →
        (applyPutSet body j).jobTitle ≠ j.jobTitle) := by
  intro db u id body j hfind howner
  have hguard : ¬ (some u.email ≠ j.employerEmail) := by
    rw [howner]
    simp
  have hstate : (putJobHandler db u id body).2 =
      { db with jobs := updateFirstJob db.jobs id (applyPutSet body) } := by
    simp only [putJobHandler, hfind]
    rw [if_neg hguard]
  refine ⟨?_, ⟨rfl, rfl, rfl, rfl, rfl, rfl, rfl⟩, ?_⟩
  · rw [hstate]
    show (updateFirstJob db.jobs id (applyPutSet body)).find?
        (fun x => decide (x._id = id)) = some (applyPutSet body j)
    exact find?_updateFirstJob (applyPutSet body) (fun _ => rfl) id db.jobs j hfind
  · intro v hb hj
    show body.jobTitle ≠ j.jobTitle
    rw [hb, hj]
    simp

/-- C10 witness: the owner updates `jobA` (whose stored `jobTitle` is `Logo`)
with a body whose seven fields are all absent; the stored `jobTitle` is
overwritten with the absent value instead of being kept. -/
theorem put_overwrites_fields_unconditionally_witness :
    findJob (putJobHandler db0 userA 0 bodyNone).2 0 =
      some (applyPutSet bodyNone jobA) ∧
    (applyPutSet bodyNone jobA).deadline = bodyNone.deadline ∧
    (applyPutSet bodyNone jobA).jobTitle ≠ jobA.jobTitle :=
  ⟨(put_overwrites_fields_unconditionally db0 userA 0 bodyNone jobA rfl rfl).1,
   (put_overwrites_fields_unconditionally db0 userA 0 bodyNone jobA rfl rfl).2.1.2.2.2.2.2.2,
   (put_overwrites_fields_unconditionally db0 userA 0 bodyNone jobA rfl rfl).2.2
     "Logo" rfl rfl⟩

end FreelanceServer
